import Mathlib

/-!
Verification of the Overcooked V2 step engine
(`jaxmarl/environments/overcooked_v2/overcooked.py`).

The per-step transition logic is embedded shallowly: the grid is a function
from positions to cells, agents are records, and every jax-vectorised
operation of the source is re-expressed as an explicit computation over the
two agents (the environment constructor fixes `num_agents = 2`).

The helper module `common.py` (object tags, the dynamic-object bitmask
helpers, `Position.move_in_bounds`, `Agent.get_fwd_pos`) is not part of the
sources; those definitions are modelled from the specification and are
marked as such in their doc comments.

In the source, mutually exclusive 0/1 indicator arrays are combined with
`+` and `*`; since the guards are provably disjoint (they require different
static tags, or an empty versus a non-empty inventory), the embedding uses
`Bool` disjunction and `if` expressions, which agree with the indicator
arithmetic on disjoint guards.
-/

namespace Overcooked

/-! ## Static object tags

Modelled from the spec: the per-cell terrain tags
(`EMPTY, WALL, AGENT, SELF_AGENT, GOAL, POT, PLATE_PILE, INGREDIENT_PILE(k)`).
The concrete integer codes live in `common.py`, which is not among the
sources; only their distinctness and the ingredient-pile range matter. -/

def StaticObject.EMPTY : Nat := 0

def StaticObject.WALL : Nat := 1

def StaticObject.AGENT : Nat := 2

def StaticObject.SELF_AGENT : Nat := 3

def StaticObject.GOAL : Nat := 4

def StaticObject.POT : Nat := 5

def StaticObject.PLATE_PILE : Nat := 6

/-- Modelled from the spec: ingredient piles are the tags from this value
upwards, tag `INGREDIENT_PILE_BASE + k` being the pile of ingredient `k`. -/
def StaticObject.INGREDIENT_PILE_BASE : Nat := 7

/-- Modelled from the spec: whether a static tag is an ingredient pile. -/
def StaticObject.is_ingredient_pile (o : Nat) : Bool :=
  decide (StaticObject.INGREDIENT_PILE_BASE ≤ o)

/-! ## Dynamic object bitmask

Modelled from the spec: a cell's dynamic contents and an agent's inventory
are a bitmask holding a cooked flag, a plate flag, and per-ingredient-type
small counts (multiplicity up to 3), merged by addition. -/

def DynamicObject.COOKED : Nat := 1

def DynamicObject.PLATE : Nat := 2

/-- Modelled from the spec: the bitmask value of one unit of ingredient
`idx`; each ingredient type occupies its own two-bit field so that up to
three units can be accumulated by addition. -/
def DynamicObject.ingredient (idx : Nat) : Nat := 4 <<< (2 * idx)

/-- Number of distinct ingredient types (spec: a fixed 3-ingredient pot). -/
def MAX_INGREDIENT_TYPES : Nat := 3

/-- Sum of the two-bit fields of `d`, reading `fuel` fields. -/
def DynamicObject.count_fields : Nat → Nat → Nat
  | 0, _ => 0
  | fuel + 1, d => d % 4 + DynamicObject.count_fields fuel (d / 4)

/-- Modelled from the spec: the total number of ingredient units in a
dynamic bitmask (the plate and cooked flags occupy the two lowest bits and
are skipped). -/
def DynamicObject.ingredient_count (d : Nat) : Nat :=
  DynamicObject.count_fields MAX_INGREDIENT_TYPES (d / 4)

/-! ## Positions, directions, agents, cells -/

/-- Modelled from the spec: the four facing directions. -/
inductive Direction
  | UP
  | DOWN
  | RIGHT
  | LEFT
deriving DecidableEq, Repr

/-- Grid coordinates. -/
structure Position where
  x : Nat
  y : Nat
deriving DecidableEq, Repr

/-- Modelled from the spec: one step in direction `d`, clamped so the
result stays inside the `width × height` grid (moving into a boundary
leaves the coordinate unchanged). -/
def Position.move_in_bounds (p : Position) (d : Direction) (width height : Nat) : Position :=
  match d with
  | Direction.UP => ⟨p.x, p.y - 1⟩
  | Direction.DOWN => ⟨p.x, min (p.y + 1) (height - 1)⟩
  | Direction.LEFT => ⟨p.x - 1, p.y⟩
  | Direction.RIGHT => ⟨min (p.x + 1) (width - 1), p.y⟩

/-- An agent record: position, facing direction, single-slot inventory. -/
structure Agent where
  pos : Position
  dir : Direction
  inventory : Nat
deriving DecidableEq, Repr

/-- Modelled from the spec: the cell the agent faces, its position shifted
one step along its facing direction and clamped to the grid bounds. -/
def Agent.get_fwd_pos (a : Agent) (width height : Nat) : Position :=
  a.pos.move_in_bounds a.dir width height

/-- One grid cell: the three channels of the source's `width × height × 3`
array (static tag, dynamic bitmask, extra counter). -/
structure Cell where
  static : Nat
  dynamic : Nat
  extra : Nat
deriving DecidableEq, Repr

/-- The grid, as a map from positions to cells. -/
abbrev Grid := Position → Cell

/-- Functional update of one cell (the source's `grid.at[y, x].set`). -/
def Grid.set (g : Grid) (p : Position) (c : Cell) : Grid :=
  fun q => if q = p then c else g q

/-- The environment state (`State` in the source). -/
structure GameState where
  agents : Agent × Agent
  grid : Grid
  time : Nat
  terminal : Bool

/-- The static environment parameters used by the step logic. -/
structure Env where
  width : Nat
  height : Nat
  max_steps : Nat

/-- The six actions of the source's `Actions` enum. -/
inductive Actions
  | right
  | down
  | left
  | up
  | stay
  | interact
deriving DecidableEq, Repr

/-- The source's `ACTION_TO_DIRECTION` lookup table: directional actions map
to their direction, `stay` and `interact` to the `-1` sentinel (`none`). -/
def ACTION_TO_DIRECTION : Actions → Option Direction
  | Actions.right => some Direction.RIGHT
  | Actions.down => some Direction.DOWN
  | Actions.left => some Direction.LEFT
  | Actions.up => some Direction.UP
  | Actions.stay => none
  | Actions.interact => none

/-! ## Constants of the step logic -/

def DELIVERY_REWARD : Nat := 20

def POT_COOK_TIME : Nat := 20

def NUM_AGENTS : Nat := 2

/-! ## Movement resolver (`_move_wrapper` in `step_agents`) -/

/-- One agent's move: for a directional action, the facing direction is
always updated, and the position moves to the clamped candidate cell iff
that cell's static tag is `EMPTY` in `grid` (the grid from before this
step's moves); `stay` and `interact` leave the agent unchanged. -/
def move_wrapper (env : Env) (grid : Grid) (agent : Agent) (action : Actions) : Agent :=
  match ACTION_TO_DIRECTION action with
  | none => agent
  | some direction =>
    let pos := agent.pos
    let cand := pos.move_in_bounds direction env.width env.height
    let new_pos := if (grid cand).static = StaticObject.EMPTY then cand else pos
    { agent with pos := new_pos, dir := direction }

/-! ## Collision resolver (the `while_loop` in `step_agents`) -/

/-- Effective positions under an undo mask: a masked agent keeps its old
position, an unmasked one uses its candidate new position. -/
def resolved_positions (origs news : Position × Position) (mask : Bool × Bool) :
    Position × Position :=
  ((if mask.1 then origs.1 else news.1), (if mask.2 then origs.2 else news.2))

/-- Occupancy count of cell `c` under the two effective positions (the
source's `collision_grid` built by a scan of `.add(1)`). -/
def occupancy (positions : Position × Position) (c : Position) : Nat :=
  (if positions.1 = c then 1 else 0) + (if positions.2 = c then 1 else 0)

/-- The source's `_get_collisions`: an agent is flagged iff the occupancy
of its effective cell exceeds 1. -/
def get_collisions (origs news : Position × Position) (mask : Bool × Bool) : Bool × Bool :=
  let positions := resolved_positions origs news mask
  (decide (1 < occupancy positions positions.1),
   decide (1 < occupancy positions positions.2))

def mask_any (m : Bool × Bool) : Bool := m.1 || m.2

def mask_or (a b : Bool × Bool) : Bool × Bool := (a.1 || b.1, a.2 || b.2)

/-- The collision-resolution loop: while some agent is flagged, OR the
collision flags into the undo mask. The source iterates to a fixed point
with `jax.lax.while_loop`; the embedding carries an explicit iteration
budget, and the fixed-point theorems show that a budget of `NUM_AGENTS`
already reaches a stable mask on well-formed states. -/
def collision_loop (origs news : Position × Position) : Nat → Bool × Bool → Bool × Bool
  | 0, mask => mask
  | fuel + 1, mask =>
    if mask_any (get_collisions origs news mask) then
      collision_loop origs news fuel (mask_or mask (get_collisions origs news mask))
    else mask

/-! ## Interaction resolver (`process_interact`) -/

def pot_is_cooking (c : Cell) : Bool :=
  decide (c.static = StaticObject.POT) && decide (0 < c.extra)

def pot_is_cooked (c : Cell) : Bool :=
  decide (c.static = StaticObject.POT) && decide (c.dynamic &&& DynamicObject.COOKED ≠ 0)

def pot_is_idle (c : Cell) : Bool :=
  decide (c.static = StaticObject.POT) && !pot_is_cooking c && !pot_is_cooked c

def object_is_pile (c : Cell) : Bool :=
  decide (c.static = StaticObject.PLATE_PILE) || StaticObject.is_ingredient_pile c.static

/-- The source's `successful_pickup` guard (a sum of disjoint indicators). -/
def successful_pickup (c : Cell) (inventory : Nat) : Bool :=
  object_is_pile c && decide (inventory = 0)
  || pot_is_cooked c && decide (inventory = DynamicObject.PLATE)
  || decide (c.static = StaticObject.WALL) && !decide (c.dynamic = 0) && decide (inventory = 0)

def pot_full (c : Cell) : Bool :=
  decide (DynamicObject.ingredient_count c.dynamic = 3)

/-- The source's `successful_drop` guard; note that the second disjunct
tests only `(inventory & PLATE) == 0`, which an empty inventory passes. -/
def successful_drop (c : Cell) (inventory : Nat) : Bool :=
  decide (c.static = StaticObject.WALL) && decide (c.dynamic = 0) && !decide (inventory = 0)
  || pot_is_idle c && decide (inventory &&& DynamicObject.PLATE = 0) && !pot_full c

def successful_delivery (c : Cell) (inventory : Nat) : Bool :=
  decide (c.static = StaticObject.GOAL) && decide (inventory &&& DynamicObject.COOKED ≠ 0)

def no_effect (c : Cell) (inventory : Nat) : Bool :=
  !successful_pickup c inventory && !successful_drop c inventory
  && !successful_delivery c inventory

/-- The guard of the source's `new_extra` select: an idle, non-empty pot
interacted with by an empty-handed agent starts cooking. -/
def cooking_start (c : Cell) (inventory : Nat) : Bool :=
  pot_is_idle c && !decide (c.dynamic = 0) && decide (inventory = 0)

/-- Modelled from the spec for the pile tags: the implicit item a pile
hands out (a plate for the plate pile, the pile's ingredient for an
ingredient pile). -/
def pile_ingredient (c : Cell) : Nat :=
  (if c.static = StaticObject.PLATE_PILE then DynamicObject.PLATE else 0)
  + (if StaticObject.is_ingredient_pile c.static then
      DynamicObject.ingredient (c.static - StaticObject.INGREDIENT_PILE_BASE)
    else 0)

/-- The source's `process_interact`: the faced cell and the inventory are
classified, exactly one of pickup/drop/delivery/no-op fires, the faced
cell's dynamic channel and extra counter are rewritten, and the reward is
the delivery bonus or 0. -/
def process_interact (env : Env) (grid : Grid) (agent : Agent) : Grid × Agent × Nat :=
  let inventory := agent.inventory
  let fwd_pos := agent.get_fwd_pos env.width env.height
  let interact_cell := grid fwd_pos
  let merged_ingredients := interact_cell.dynamic + inventory
  let new_ingredients :=
    (if successful_drop interact_cell inventory then merged_ingredients else 0)
    + (if no_effect interact_cell inventory then interact_cell.dynamic else 0)
  let new_extra :=
    if cooking_start interact_cell inventory then POT_COOK_TIME else interact_cell.extra
  let new_cell : Cell := ⟨interact_cell.static, new_ingredients, new_extra⟩
  let new_grid := Grid.set grid fwd_pos new_cell
  let new_inventory :=
    (if successful_pickup interact_cell inventory then
      pile_ingredient interact_cell + merged_ingredients
    else 0)
    + (if no_effect interact_cell inventory then inventory else 0)
  let reward := if successful_delivery interact_cell inventory then DELIVERY_REWARD else 0
  (new_grid, { agent with inventory := new_inventory }, reward)

/-! ## Cooking updater (`_cook_wrapper`) -/

/-- One cell's cooking update: a pot with a positive extra counter counts
down by one, and when the counter reaches exactly 0 on this step the
cooked flag is OR-ed into the dynamic channel; all other cells are
unchanged. -/
def cook_cell (cell : Cell) : Cell :=
  if cell.static = StaticObject.POT then
    let is_cooking := decide (0 < cell.extra)
    let new_extra := if is_cooking then cell.extra - 1 else cell.extra
    let finished_cooking := is_cooking && decide (new_extra = 0)
    let new_ingredients := cell.dynamic ||| (if finished_cooking then DynamicObject.COOKED else 0)
    ⟨cell.static, new_ingredients, new_extra⟩
  else cell

/-- The cooking update applied to every cell of the grid. -/
def cook_grid (g : Grid) : Grid := fun p => cook_cell (g p)

/-! ## Step orchestrator (`step_agents`, `step_env`, `is_terminal`) -/

/-- The source's `step_agents`: independent moves against the pre-step
grid, the collision fixed point, the sequential interaction fold (agent 0
first, agent 1 seeing agent 0's grid mutation), then the cooking update;
returns the new state and the accumulated shared reward. -/
def step_agents (env : Env) (state : GameState) (actions : Actions × Actions) :
    GameState × Nat :=
  let grid := state.grid
  let moved : Agent × Agent :=
    (move_wrapper env grid state.agents.1 actions.1,
     move_wrapper env grid state.agents.2 actions.2)
  let origs := (state.agents.1.pos, state.agents.2.pos)
  let news := (moved.1.pos, moved.2.pos)
  let mask := collision_loop origs news NUM_AGENTS (false, false)
  let resolved := resolved_positions origs news mask
  let agents1 : Agent × Agent :=
    ({ moved.1 with pos := resolved.1 }, { moved.2 with pos := resolved.2 })
  let step1 : Grid × Agent × Nat :=
    if actions.1 = Actions.interact then process_interact env grid agents1.1
    else (grid, agents1.1, 0)
  let step2 : Grid × Agent × Nat :=
    if actions.2 = Actions.interact then process_interact env step1.1 agents1.2
    else (step1.1, agents1.2, 0)
  let new_grid := cook_grid step2.1
  ({ state with agents := (step1.2.1, step2.2.1), grid := new_grid },
   step1.2.2 + step2.2.2)

/-- The source's `is_terminal`: time has reached `max_steps`, or the
terminal flag was already latched. -/
def is_terminal (env : Env) (s : GameState) : Bool :=
  decide (env.max_steps ≤ s.time) || s.terminal

/-- The source's `step_env`: run `step_agents`, advance time by one, latch
the terminal flag; returns the new state, the shared reward, and done. -/
def step_env (env : Env) (state : GameState) (actions : Actions × Actions) :
    GameState × Nat × Bool :=
  let sr := step_agents env state actions
  let s1 := { sr.1 with time := sr.1.time + 1 }
  let done := is_terminal env s1
  let s2 := { s1 with terminal := done }
  (s2, sr.2, done)

/-- A run of the environment along a stream of joint actions. -/
def run_env (env : Env) (acts : Nat → Actions × Actions) (s : GameState) : Nat → GameState
  | 0 => s
  | k + 1 => (step_env env (run_env env acts s k) (acts k)).1

/-! ## Observation builder (`get_obs`) -/

/-- Modelled from the spec: the integer code of a facing direction, used
when an agent's cell is overlaid in the observation's third channel. -/
def dir_code : Direction → Nat
  | Direction.UP => 0
  | Direction.DOWN => 1
  | Direction.RIGHT => 2
  | Direction.LEFT => 3

/-- The source's `_include_agents` scan body: overwrite the agent's cell
with the agent marker, its inventory, and its facing direction. -/
def include_agent (g : Grid) (a : Agent) : Grid :=
  Grid.set g a.pos ⟨StaticObject.AGENT, a.inventory, dir_code a.dir⟩

/-- The source's `_agent_obs`: in the observing agent's own view, its own
cell's static channel is rewritten to the self marker. -/
def agent_obs (base : Grid) (a : Agent) : Grid :=
  fun p => if p = a.pos then { base p with static := StaticObject.SELF_AGENT } else base p

/-- The source's `get_obs`: overlay both agents (agent 0 first), then mark
each observer's own cell; the pair holds agent 0's and agent 1's views. -/
def get_obs (state : GameState) : Grid × Grid :=
  let base := include_agent (include_agent state.grid state.agents.1) state.agents.2
  (agent_obs base state.agents.1, agent_obs base state.agents.2)

/-! ## Concrete layouts used by witnesses and counterexamples -/

def envW : Env := ⟨3, 3, 400⟩

def potPos0 : Position := ⟨1, 0⟩

/-- A 3×3 layout with a single pot holding one unit of ingredient 0. -/
def grid0 : Grid := fun p =>
  if p = potPos0 then ⟨StaticObject.POT, DynamicObject.ingredient 0, 0⟩
  else ⟨StaticObject.EMPTY, 0, 0⟩

def agentA : Agent := ⟨⟨1, 1⟩, Direction.UP, 0⟩

def agentB : Agent := ⟨⟨2, 2⟩, Direction.UP, 0⟩

def state0 : GameState := ⟨(agentA, agentB), grid0, 0, false⟩

/-! ## General helper lemmas -/

lemma action_ne_interact_of_dir {a : Actions} {d : Direction}
    (h : ACTION_TO_DIRECTION a = some d) : a ≠ Actions.interact := by
  cases a <;> simp_all [ACTION_TO_DIRECTION]

lemma move_wrapper_some (env : Env) (grid : Grid) (ag : Agent) {a : Actions} {d : Direction}
    (h : ACTION_TO_DIRECTION a = some d) :
    move_wrapper env grid ag a =
      { ag with
        pos :=
          if (grid (ag.pos.move_in_bounds d env.width env.height)).static = StaticObject.EMPTY
          then ag.pos.move_in_bounds d env.width env.height
          else ag.pos,
        dir := d } := by
  unfold move_wrapper
  rw [h]

lemma resolved_positions_false (origs news : Position × Position) :
    resolved_positions origs news (false, false) = news := rfl

lemma resolved_positions_true (origs news : Position × Position) :
    resolved_positions origs news (true, true) = origs := rfl

lemma get_collisions_of_ne (origs news : Position × Position) (mask : Bool × Bool)
    (h : (resolved_positions origs news mask).1 ≠ (resolved_positions origs news mask).2) :
    get_collisions origs news mask = (false, false) := by
  unfold get_collisions occupancy
  simp [h, Ne.symm h]

lemma get_collisions_of_eq (origs news : Position × Position) (mask : Bool × Bool)
    (h : (resolved_positions origs news mask).1 = (resolved_positions origs news mask).2) :
    get_collisions origs news mask = (true, true) := by
  unfold get_collisions occupancy
  simp [h]

lemma get_collisions_initial_eq (origs news : Position × Position) (h : news.1 = news.2) :
    get_collisions origs news (false, false) = (true, true) := by
  apply get_collisions_of_eq
  rw [resolved_positions_false]
  exact h

lemma get_collisions_initial_ne (origs news : Position × Position) (h : news.1 ≠ news.2) :
    get_collisions origs news (false, false) = (false, false) := by
  apply get_collisions_of_ne
  rw [resolved_positions_false]
  exact h

lemma get_collisions_full_mask (origs news : Position × Position) (h : origs.1 ≠ origs.2) :
    get_collisions origs news (true, true) = (false, false) := by
  apply get_collisions_of_ne
  rw [resolved_positions_true]
  exact h

lemma collision_loop_succ (origs news : Position × Position) (fuel : Nat) (mask : Bool × Bool) :
    collision_loop origs news (fuel + 1) mask =
      if mask_any (get_collisions origs news mask) then
        collision_loop origs news fuel (mask_or mask (get_collisions origs news mask))
      else mask := rfl

lemma collision_loop_no_move_conflict (origs news : Position × Position) (fuel : Nat)
    (h : news.1 ≠ news.2) :
    collision_loop origs news fuel (false, false) = (false, false) := by
  cases fuel with
  | zero => rfl
  | succ fuel =>
    rw [collision_loop_succ, get_collisions_initial_ne origs news h]
    simp [mask_any]

lemma collision_loop_same_target (origs news : Position × Position) (fuel : Nat)
    (hn : news.1 = news.2) (ho : origs.1 ≠ origs.2) :
    collision_loop origs news (fuel + 2) (false, false) = (true, true) := by
  rw [collision_loop_succ, get_collisions_initial_eq origs news hn]
  simp only [mask_any, mask_or, Bool.or_self, Bool.false_or, if_pos]
  rw [collision_loop_succ, get_collisions_full_mask origs news ho]
  simp [mask_any]

/-! ## Claim theorems: movement and collision -/

/-- C5: a directional action toward a cell whose static tag is not `EMPTY`
(checked on the grid from before this step's moves) leaves the mover's
position unchanged while updating its facing direction to the attempted
direction, both at the movement-resolver stage and after the whole
`step_agents` step. -/
theorem blocked_move_updates_direction_only
    (env : Env) (s : GameState) (a0 a1 : Actions) (d : Direction)
    (hd : ACTION_TO_DIRECTION a0 = some d)
    (hblock : (s.grid (s.agents.1.pos.move_in_bounds d env.width env.height)).static
      ≠ StaticObject.EMPTY) :
    move_wrapper env s.grid s.agents.1 a0 = { s.agents.1 with dir := d }
    ∧ (step_agents env s (a0, a1)).1.agents.1.pos = s.agents.1.pos
    ∧ (step_agents env s (a0, a1)).1.agents.1.dir = d := by
  have hmv : move_wrapper env s.grid s.agents.1 a0 = { s.agents.1 with dir := d } := by
    rw [move_wrapper_some env s.grid s.agents.1 hd, if_neg hblock]
  refine ⟨hmv, ?_, ?_⟩ <;>
    simp only [step_agents, hmv] <;>
    simp only [if_neg (action_ne_interact_of_dir hd)] <;>
    simp [resolved_positions]

/-- Witness for the blocked-move theorem: in `state0`, agent 0 at (1,1)
moving up toward the pot at (1,0) stays in place and ends facing up. -/
theorem blocked_move_updates_direction_only_witness :
    move_wrapper envW state0.grid state0.agents.1 Actions.up = { agentA with dir := Direction.UP }
    ∧ (step_agents envW state0 (Actions.up, Actions.stay)).1.agents.1.pos = agentA.pos
    ∧ (step_agents envW state0 (Actions.up, Actions.stay)).1.agents.1.dir = Direction.UP :=
  blocked_move_updates_direction_only envW state0 Actions.up Actions.stay Direction.UP rfl
    (by decide)

/-- C6: the undo mask only grows under one iteration (`mask | collisions`),
and for distinct pre-move positions (as in any well-formed state) the
collision-resolution loop reaches, within `NUM_AGENTS` iterations, a mask
with no flagged collisions that further iterations do not change. -/
theorem collision_fixed_point_within_num_agents
    (origs news : Position × Position) (h : origs.1 ≠ origs.2) :
    (∀ mask c : Bool × Bool,
      (mask.1 = true → (mask_or mask c).1 = true)
      ∧ (mask.2 = true → (mask_or mask c).2 = true))
    ∧ mask_any (get_collisions origs news
        (collision_loop origs news NUM_AGENTS (false, false))) = false
    ∧ (∀ k, collision_loop origs news (NUM_AGENTS + k) (false, false)
        = collision_loop origs news NUM_AGENTS (false, false)) := by
  refine ⟨fun mask c =>
    ⟨fun hm => by simp [mask_or, hm], fun hm => by simp [mask_or, hm]⟩, ?_, ?_⟩
  · by_cases hn : news.1 = news.2
    · show mask_any (get_collisions origs news
        (collision_loop origs news (0 + 2) (false, false))) = false
      rw [collision_loop_same_target origs news 0 hn h,
        get_collisions_full_mask origs news h]
      rfl
    · show mask_any (get_collisions origs news
        (collision_loop origs news NUM_AGENTS (false, false))) = false
      rw [collision_loop_no_move_conflict origs news NUM_AGENTS hn,
        get_collisions_initial_ne origs news hn]
      rfl
  · intro k
    by_cases hn : news.1 = news.2
    · have hk : NUM_AGENTS + k = k + 2 := by show 2 + k = k + 2; omega
      rw [hk, collision_loop_same_target origs news k hn h]
      show _ = collision_loop origs news (0 + 2) (false, false)
      rw [collision_loop_same_target origs news 0 hn h]
    · rw [collision_loop_no_move_conflict origs news (NUM_AGENTS + k) hn,
        collision_loop_no_move_conflict origs news NUM_AGENTS hn]

/-- Witness for the collision fixed-point theorem at concrete positions:
both agents target (2,2) from distinct cells. -/
theorem collision_fixed_point_within_num_agents_witness :
    mask_any (get_collisions (⟨0, 0⟩, ⟨1, 0⟩) (⟨2, 2⟩, ⟨2, 2⟩)
      (collision_loop (⟨0, 0⟩, ⟨1, 0⟩) (⟨2, 2⟩, ⟨2, 2⟩) NUM_AGENTS (false, false))) = false
    ∧ collision_loop (⟨0, 0⟩, ⟨1, 0⟩) (⟨2, 2⟩, ⟨2, 2⟩) (NUM_AGENTS + 3) (false, false)
      = collision_loop (⟨0, 0⟩, ⟨1, 0⟩) (⟨2, 2⟩, ⟨2, 2⟩) NUM_AGENTS (false, false) :=
  ⟨(collision_fixed_point_within_num_agents (⟨0, 0⟩, ⟨1, 0⟩) (⟨2, 2⟩, ⟨2, 2⟩)
      (by decide)).2.1,
   (collision_fixed_point_within_num_agents (⟨0, 0⟩, ⟨1, 0⟩) (⟨2, 2⟩, ⟨2, 2⟩)
      (by decide)).2.2 3⟩

/-- C2: two agents whose moves both target the same EMPTY cell in the same
step are both reverted to their pre-move positions, and no two agents
occupy the same cell after the step. -/
theorem same_target_collision_reverts_both
    (env : Env) (s : GameState) (a0 a1 : Actions) (d0 d1 : Direction) (c : Position)
    (hpos : s.agents.1.pos ≠ s.agents.2.pos)
    (hd0 : ACTION_TO_DIRECTION a0 = some d0)
    (hd1 : ACTION_TO_DIRECTION a1 = some d1)
    (hc0 : s.agents.1.pos.move_in_bounds d0 env.width env.height = c)
    (hc1 : s.agents.2.pos.move_in_bounds d1 env.width env.height = c)
    (hempty : (s.grid c).static = StaticObject.EMPTY) :
    (step_agents env s (a0, a1)).1.agents.1.pos = s.agents.1.pos
    ∧ (step_agents env s (a0, a1)).1.agents.2.pos = s.agents.2.pos
    ∧ (step_agents env s (a0, a1)).1.agents.1.pos
      ≠ (step_agents env s (a0, a1)).1.agents.2.pos := by
  have hmv0 : move_wrapper env s.grid s.agents.1 a0 = { s.agents.1 with pos := c, dir := d0 } := by
    rw [move_wrapper_some env s.grid s.agents.1 hd0, hc0, if_pos hempty]
  have hmv1 : move_wrapper env s.grid s.agents.2 a1 = { s.agents.2 with pos := c, dir := d1 } := by
    rw [move_wrapper_some env s.grid s.agents.2 hd1, hc1, if_pos hempty]
  have hloop : collision_loop (s.agents.1.pos, s.agents.2.pos) (c, c) NUM_AGENTS (false, false)
      = (true, true) := by
    show collision_loop _ _ (0 + 2) _ = _
    exact collision_loop_same_target _ _ 0 rfl hpos
  refine ⟨?_, ?_, ?_⟩ <;>
  · simp only [step_agents, hmv0, hmv1]
    simp only [if_neg (action_ne_interact_of_dir hd0), if_neg (action_ne_interact_of_dir hd1)]
    simp [hloop, resolved_positions, hpos]

def emptyGrid : Grid := fun _ => ⟨StaticObject.EMPTY, 0, 0⟩

def cAgentA : Agent := ⟨⟨0, 1⟩, Direction.UP, 0⟩

def cAgentB : Agent := ⟨⟨2, 1⟩, Direction.UP, 0⟩

def cState : GameState := ⟨(cAgentA, cAgentB), emptyGrid, 0, false⟩

/-! ## Helper lemmas for grid updates -/

lemma Grid.set_same (g : Grid) (p : Position) (c : Cell) : Grid.set g p c p = c := by
  unfold Grid.set
  simp

lemma Grid.set_other (g : Grid) (p q : Position) (c : Cell) (h : q ≠ p) :
    Grid.set g p c q = g q := by
  unfold Grid.set
  simp [h]

lemma Grid.set_self_apply (g : Grid) (p0 : Position) (c : Cell) (hcell : g p0 = c)
    (p : Position) : Grid.set g p0 c p = g p := by
  unfold Grid.set
  by_cases h : p = p0
  · simp [h, hcell]
  · simp [h]

/-! ## Claim theorems: interaction resolver -/

/-- C7: an agent holding a raw ingredient interacting with an idle pot that
already holds 3 ingredient units causes no effect: the whole grid, the
agent, and the reward are unchanged. -/
theorem full_pot_drop_is_noop
    (env : Env) (grid : Grid) (ag : Agent)
    (hstat : (grid (ag.get_fwd_pos env.width env.height)).static = StaticObject.POT)
    (hnc : (grid (ag.get_fwd_pos env.width env.height)).dynamic &&& DynamicObject.COOKED = 0)
    (hextra : (grid (ag.get_fwd_pos env.width env.height)).extra = 0)
    (hfull : DynamicObject.ingredient_count
      (grid (ag.get_fwd_pos env.width env.height)).dynamic = 3)
    (hne : ag.inventory ≠ 0)
    (hplate : ag.inventory &&& DynamicObject.PLATE = 0)
    (hraw : ag.inventory &&& DynamicObject.COOKED = 0) :
    (∀ p, (process_interact env grid ag).1 p = grid p)
    ∧ (process_interact env grid ag).2.1 = ag
    ∧ (process_interact env grid ag).2.2 = 0 := by
  have hpick : successful_pickup (grid (ag.get_fwd_pos env.width env.height)) ag.inventory
      = false := by
    simp +decide [successful_pickup, object_is_pile, StaticObject.is_ingredient_pile,
      pot_is_cooked, hstat, hnc, hne]
  have hdrop : successful_drop (grid (ag.get_fwd_pos env.width env.height)) ag.inventory
      = false := by
    simp +decide [successful_drop, pot_full, hfull, hstat]
  have hdel : successful_delivery (grid (ag.get_fwd_pos env.width env.height)) ag.inventory
      = false := by
    simp +decide [successful_delivery, hstat]
  have hnoeff : no_effect (grid (ag.get_fwd_pos env.width env.height)) ag.inventory = true := by
    simp [no_effect, hpick, hdrop, hdel]
  have hcook : cooking_start (grid (ag.get_fwd_pos env.width env.height)) ag.inventory
      = false := by
    simp [cooking_start, hne]
  refine ⟨?_, ?_, ?_⟩
  · intro p
    simp only [process_interact, hdrop, hnoeff, hcook]
    simp
    exact Grid.set_self_apply grid _ _ rfl p
  · simp only [process_interact, hpick, hnoeff]
    simp
  · simp only [process_interact, hdel]
    simp

/-- C4: interacting at the goal cell with a dish (cooked-flag inventory)
yields reward `DELIVERY_REWARD` and empties the inventory, leaving the grid
pointwise unchanged; with an uncooked inventory the state is unchanged and
the reward is 0. -/
theorem goal_delivery_reward_and_noop
    (env : Env) (grid : Grid) (ag : Agent)
    (hstat : (grid (ag.get_fwd_pos env.width env.height)).static = StaticObject.GOAL)
    (hdyn : (grid (ag.get_fwd_pos env.width env.height)).dynamic = 0) :
    (∀ p, (process_interact env grid ag).1 p = grid p)
    ∧ (process_interact env grid ag).2.1.pos = ag.pos
    ∧ (process_interact env grid ag).2.1.dir = ag.dir
    ∧ (process_interact env grid ag).2.1.inventory
      = (if ag.inventory &&& DynamicObject.COOKED ≠ 0 then 0 else ag.inventory)
    ∧ (process_interact env grid ag).2.2
      = (if ag.inventory &&& DynamicObject.COOKED ≠ 0 then DELIVERY_REWARD else 0) := by
  have hpick : successful_pickup (grid (ag.get_fwd_pos env.width env.height)) ag.inventory
      = false := by
    simp +decide [successful_pickup, object_is_pile, StaticObject.is_ingredient_pile,
      pot_is_cooked, hstat]
  have hdrop : successful_drop (grid (ag.get_fwd_pos env.width env.height)) ag.inventory
      = false := by
    simp +decide [successful_drop, pot_is_idle, hstat]
  have hcook : cooking_start (grid (ag.get_fwd_pos env.width env.height)) ag.inventory
      = false := by
    simp +decide [cooking_start, pot_is_idle, hstat]
  by_cases hdish : ag.inventory &&& DynamicObject.COOKED = 0
  · have hdel : successful_delivery (grid (ag.get_fwd_pos env.width env.height)) ag.inventory
        = false := by
      simp [successful_delivery, hdish]
    have hnoeff : no_effect (grid (ag.get_fwd_pos env.width env.height)) ag.inventory
        = true := by
      simp [no_effect, hpick, hdrop, hdel]
    refine ⟨?_, ?_, ?_, ?_, ?_⟩
    · intro p
      simp only [process_interact, hdrop, hnoeff, hcook]
      simp
      exact Grid.set_self_apply grid _ _ rfl p
    · rfl
    · rfl
    · simp only [process_interact, hpick, hnoeff]
      simp [hdish]
    · simp only [process_interact, hdel]
      simp [hdish]
  · have hdel : successful_delivery (grid (ag.get_fwd_pos env.width env.height)) ag.inventory
        = true := by
      simp [successful_delivery, hstat, hdish]
    have hnoeff : no_effect (grid (ag.get_fwd_pos env.width env.height)) ag.inventory
        = false := by
      simp [no_effect, hdel]
    refine ⟨?_, ?_, ?_, ?_, ?_⟩
    · intro p
      simp only [process_interact, hdrop, hnoeff, hcook]
      simp
      refine Grid.set_self_apply grid _ _ ?_ p
      rw [← hdyn]
    · rfl
    · rfl
    · simp only [process_interact, hpick, hnoeff]
      simp [hdish]
    · simp only [process_interact, hdel]
      simp [hdish]

/-- C8: an empty-handed agent interacting with an ingredient pile ends up
holding that pile's ingredient, and the whole grid (the pile cell's static
tag included) is unchanged, so the pickup can be repeated indefinitely. -/
theorem ingredient_pile_pickup
    (env : Env) (grid : Grid) (ag : Agent)
    (hstat : StaticObject.INGREDIENT_PILE_BASE
      ≤ (grid (ag.get_fwd_pos env.width env.height)).static)
    (hdyn : (grid (ag.get_fwd_pos env.width env.height)).dynamic = 0)
    (hinv : ag.inventory = 0) :
    (process_interact env grid ag).2.1.inventory
      = DynamicObject.ingredient
          ((grid (ag.get_fwd_pos env.width env.height)).static
            - StaticObject.INGREDIENT_PILE_BASE)
    ∧ (∀ p, (process_interact env grid ag).1 p = grid p) := by
  have h7 : 7 ≤ (grid (ag.get_fwd_pos env.width env.height)).static := hstat
  have h1 : (grid (ag.get_fwd_pos env.width env.height)).static ≠ StaticObject.WALL := by
    show _ ≠ 1
    omega
  have h4 : (grid (ag.get_fwd_pos env.width env.height)).static ≠ StaticObject.GOAL := by
    show _ ≠ 4
    omega
  have h5 : (grid (ag.get_fwd_pos env.width env.height)).static ≠ StaticObject.POT := by
    show _ ≠ 5
    omega
  have h6 : (grid (ag.get_fwd_pos env.width env.height)).static ≠ StaticObject.PLATE_PILE := by
    show _ ≠ 6
    omega
  have hpick : successful_pickup (grid (ag.get_fwd_pos env.width env.height)) ag.inventory
      = true := by
    simp [successful_pickup, object_is_pile, StaticObject.is_ingredient_pile, hstat, hinv]
  have hdrop : successful_drop (grid (ag.get_fwd_pos env.width env.height)) ag.inventory
      = false := by
    simp [successful_drop, pot_is_idle, h1, h5]
  have hdel : successful_delivery (grid (ag.get_fwd_pos env.width env.height)) ag.inventory
      = false := by
    simp [successful_delivery, h4]
  have hnoeff : no_effect (grid (ag.get_fwd_pos env.width env.height)) ag.inventory
      = false := by
    simp [no_effect, hpick]
  have hcook : cooking_start (grid (ag.get_fwd_pos env.width env.height)) ag.inventory
      = false := by
    simp [cooking_start, pot_is_idle, h5]
  constructor
  · simp only [process_interact, hpick, hnoeff]
    simp [pile_ingredient, StaticObject.is_ingredient_pile, h6, hstat, hdyn, hinv]
  · intro p
    simp only [process_interact, hdrop, hnoeff, hcook]
    simp
    refine Grid.set_self_apply grid _ _ ?_ p
    rw [← hdyn]

/-- C10: an empty-handed agent interacting with an idle pot holding fewer
than 3 ingredient units fires the successful-drop branch (its guard
`(inventory & PLATE) == 0` classifies the empty inventory as an
ingredient), yet the pot's dynamic contents and the agent are unchanged;
only the extra counter may change, via the cooking start. -/
theorem empty_hand_idle_pot_frame
    (env : Env) (grid : Grid) (ag : Agent)
    (hstat : (grid (ag.get_fwd_pos env.width env.height)).static = StaticObject.POT)
    (hnc : (grid (ag.get_fwd_pos env.width env.height)).dynamic &&& DynamicObject.COOKED = 0)
    (hextra : (grid (ag.get_fwd_pos env.width env.height)).extra = 0)
    (hcount : DynamicObject.ingredient_count
      (grid (ag.get_fwd_pos env.width env.height)).dynamic < 3)
    (hinv : ag.inventory = 0) :
    successful_drop (grid (ag.get_fwd_pos env.width env.height)) ag.inventory = true
    ∧ ((process_interact env grid ag).1 (ag.get_fwd_pos env.width env.height)).static
      = StaticObject.POT
    ∧ ((process_interact env grid ag).1 (ag.get_fwd_pos env.width env.height)).dynamic
      = (grid (ag.get_fwd_pos env.width env.height)).dynamic
    ∧ ((process_interact env grid ag).1 (ag.get_fwd_pos env.width env.height)).extra
      = (if (grid (ag.get_fwd_pos env.width env.height)).dynamic = 0 then 0
        else POT_COOK_TIME)
    ∧ (∀ p, p ≠ ag.get_fwd_pos env.width env.height →
        (process_interact env grid ag).1 p = grid p)
    ∧ (process_interact env grid ag).2.1 = ag
    ∧ (process_interact env grid ag).2.2 = 0 := by
  have hidle : pot_is_idle (grid (ag.get_fwd_pos env.width env.height)) = true := by
    simp [pot_is_idle, pot_is_cooking, pot_is_cooked, hstat, hnc, hextra]
  have hdrop : successful_drop (grid (ag.get_fwd_pos env.width env.height)) ag.inventory
      = true := by
    simp +decide [successful_drop, pot_full, hidle, hinv, Nat.ne_of_lt hcount]
  have hpick : successful_pickup (grid (ag.get_fwd_pos env.width env.height)) ag.inventory
      = false := by
    simp +decide [successful_pickup, object_is_pile, StaticObject.is_ingredient_pile,
      pot_is_cooked, hstat, hnc]
  have hdel : successful_delivery (grid (ag.get_fwd_pos env.width env.height)) ag.inventory
      = false := by
    simp +decide [successful_delivery, hstat]
  have hnoeff : no_effect (grid (ag.get_fwd_pos env.width env.height)) ag.inventory
      = false := by
    simp [no_effect, hdrop]
  refine ⟨hdrop, ?_, ?_, ?_, ?_, ?_, ?_⟩
  · simp only [process_interact, Grid.set_same]
    exact hstat
  · simp only [process_interact, hdrop, hnoeff, Grid.set_same]
    simp [hinv]
  · simp only [process_interact, Grid.set_same]
    by_cases hd0 : (grid (ag.get_fwd_pos env.width env.height)).dynamic = 0
    · simp [cooking_start, hd0, hextra]
    · simp [cooking_start, hidle, hd0, hinv]
  · intro p hp
    simp only [process_interact]
    exact Grid.set_other grid _ p _ hp
  · simp only [process_interact, hpick, hnoeff]
    simp [hinv]
    rw [← hinv]
  · simp only [process_interact, hdel]
    simp

def goalGrid : Grid := fun p =>
  if p = potPos0 then ⟨StaticObject.GOAL, 0, 0⟩ else ⟨StaticObject.EMPTY, 0, 0⟩

def dishAgent : Agent :=
  ⟨⟨1, 1⟩, Direction.UP, DynamicObject.COOKED + DynamicObject.ingredient 0⟩

def pileGrid : Grid := fun p =>
  if p = potPos0 then ⟨StaticObject.INGREDIENT_PILE_BASE + 1, 0, 0⟩
  else ⟨StaticObject.EMPTY, 0, 0⟩

def fullPotGrid : Grid := fun p =>
  if p = potPos0 then ⟨StaticObject.POT, 3 * DynamicObject.ingredient 0, 0⟩
  else ⟨StaticObject.EMPTY, 0, 0⟩

def ingAgent : Agent := ⟨⟨1, 1⟩, Direction.UP, DynamicObject.ingredient 0⟩

/-- Witness for the full-pot theorem: dropping a fourth onion into a pot
holding three is a no-op. -/
theorem full_pot_drop_is_noop_witness :
    (process_interact envW fullPotGrid ingAgent).1 potPos0 = fullPotGrid potPos0
    ∧ (process_interact envW fullPotGrid ingAgent).2.1 = ingAgent
    ∧ (process_interact envW fullPotGrid ingAgent).2.2 = 0 := by
  have h := full_pot_drop_is_noop envW fullPotGrid ingAgent (by decide) (by decide)
    (by decide) (by decide) (by decide) (by decide) (by decide)
  exact ⟨h.1 potPos0, h.2.1, h.2.2⟩

/-- Witness for the goal-delivery theorem: delivering a cooked onion dish
yields reward 20 and an empty inventory. -/
theorem goal_delivery_reward_and_noop_witness :
    (process_interact envW goalGrid dishAgent).1 potPos0 = goalGrid potPos0
    ∧ (process_interact envW goalGrid dishAgent).2.1.inventory = 0
    ∧ (process_interact envW goalGrid dishAgent).2.2 = DELIVERY_REWARD := by
  have h := goal_delivery_reward_and_noop envW goalGrid dishAgent (by decide) (by decide)
  refine ⟨h.1 potPos0, ?_, ?_⟩
  · rw [h.2.2.2.1]
    decide
  · rw [h.2.2.2.2]
    decide

/-- Witness for the ingredient-pile theorem: picking up from the pile of
ingredient 1 yields that ingredient and leaves the grid unchanged. -/
theorem ingredient_pile_pickup_witness :
    (process_interact envW pileGrid agentA).2.1.inventory = DynamicObject.ingredient 1
    ∧ (process_interact envW pileGrid agentA).1 potPos0 = pileGrid potPos0 := by
  have h := ingredient_pile_pickup envW pileGrid agentA (by decide) (by decide) rfl
  refine ⟨?_, h.2 potPos0⟩
  rw [h.1]
  decide

/-- Witness for the empty-hand idle-pot theorem at `grid0` (pot with one
onion): the drop branch fires, the contents and the agent are unchanged,
and the extra counter is set to the cook time. -/
theorem empty_hand_idle_pot_frame_witness :
    successful_drop (grid0 potPos0) 0 = true
    ∧ ((process_interact envW grid0 agentA).1 potPos0).dynamic = (grid0 potPos0).dynamic
    ∧ ((process_interact envW grid0 agentA).1 potPos0).extra = POT_COOK_TIME
    ∧ (process_interact envW grid0 agentA).2.1 = agentA := by
  have h := empty_hand_idle_pot_frame envW grid0 agentA (by decide) (by decide)
    (by decide) (by decide) rfl
  refine ⟨h.1, h.2.2.1, ?_, h.2.2.2.2.2.1⟩
  exact h.2.2.2.1.trans (by decide)

/-! ## Claim theorems: time, termination, observations -/

lemma step_env_time (env : Env) (s : GameState) (a : Actions × Actions) :
    (step_env env s a).1.time = s.time + 1 := rfl

lemma step_env_terminal (env : Env) (s : GameState) (a : Actions × Actions) :
    (step_env env s a).1.terminal
      = (decide (env.max_steps ≤ s.time + 1) || s.terminal) := rfl

/-- C3: along any action stream from a reset state (time 0, terminal
false), time increases by exactly 1 per step, and the terminal flag is
true exactly from the step where time reaches `max_steps` on, never
resetting within the episode. -/
theorem time_increment_and_terminal_latch
    (env : Env) (acts : Nat → Actions × Actions) (s : GameState)
    (h0 : s.time = 0) (ht : s.terminal = false) (hms : 0 < env.max_steps) :
    ∀ k, (run_env env acts s k).time = k
      ∧ (run_env env acts s k).terminal = decide (env.max_steps ≤ k) := by
  intro k
  induction k with
  | zero =>
    refine ⟨h0, ?_⟩
    rw [show run_env env acts s 0 = s from rfl, ht, decide_eq_false (by omega)]
  | succ k ih =>
    obtain ⟨iht, ihterm⟩ := ih
    refine ⟨?_, ?_⟩
    · simp only [run_env]
      rw [step_env_time, iht]
    · simp only [run_env]
      rw [step_env_terminal, iht, ihterm]
      by_cases hle : env.max_steps ≤ k
      · rw [decide_eq_true hle, decide_eq_true (show env.max_steps ≤ k + 1 by omega),
          Bool.or_true]
      · rw [decide_eq_false hle, Bool.or_false]

def env2 : Env := ⟨3, 3, 2⟩

/-- Witness for the time/terminal theorem: with `max_steps = 2`, after 3
steps the time is 3 and the terminal flag is latched true. -/
theorem time_increment_and_terminal_latch_witness :
    (run_env env2 (fun _ => (Actions.stay, Actions.stay)) cState 3).time = 3
    ∧ (run_env env2 (fun _ => (Actions.stay, Actions.stay)) cState 3).terminal = true := by
  have h := time_increment_and_terminal_latch env2 (fun _ => (Actions.stay, Actions.stay))
    cState rfl rfl (by decide) 3
  exact ⟨h.1, h.2.trans (by decide)⟩

/-- C9: each observation's channel 0 reproduces the state's static layout
at every cell not occupied by an agent; the other agent's cell carries the
`AGENT` marker, and the observing agent's own cell carries `SELF_AGENT` in
its own view only. -/
theorem obs_static_channel_roundtrip
    (s : GameState) (h : s.agents.1.pos ≠ s.agents.2.pos) :
    (∀ p, p ≠ s.agents.1.pos → p ≠ s.agents.2.pos →
      ((get_obs s).1 p).static = (s.grid p).static
      ∧ ((get_obs s).2 p).static = (s.grid p).static)
    ∧ ((get_obs s).1 s.agents.1.pos).static = StaticObject.SELF_AGENT
    ∧ ((get_obs s).1 s.agents.2.pos).static = StaticObject.AGENT
    ∧ ((get_obs s).2 s.agents.2.pos).static = StaticObject.SELF_AGENT
    ∧ ((get_obs s).2 s.agents.1.pos).static = StaticObject.AGENT := by
  unfold get_obs agent_obs include_agent Grid.set
  refine ⟨fun p h1 h2 => ⟨?_, ?_⟩, ?_, ?_, ?_, ?_⟩
  · simp [h1, h2]
  · simp [h1, h2]
  · simp
  · simp [Ne.symm h]
  · simp
  · simp [h]

/-- Witness for the observation theorem on `state0`: the pot cell is
reported faithfully, and the agent cells carry the self/other markers. -/
theorem obs_static_channel_roundtrip_witness :
    ((get_obs state0).1 potPos0).static = (state0.grid potPos0).static
    ∧ ((get_obs state0).1 agentA.pos).static = StaticObject.SELF_AGENT
    ∧ ((get_obs state0).1 agentB.pos).static = StaticObject.AGENT
    ∧ ((get_obs state0).2 agentB.pos).static = StaticObject.SELF_AGENT
    ∧ ((get_obs state0).2 agentA.pos).static = StaticObject.AGENT := by
  have h := obs_static_channel_roundtrip state0 (by decide)
  exact ⟨(h.1 potPos0 (by decide) (by decide)).1, h.2.1, h.2.2.1, h.2.2.2.1, h.2.2.2.2⟩

/-! ## Cooking countdown lemmas -/

lemma stay_step_grid (env : Env) (s : GameState) :
    (step_env env s (Actions.stay, Actions.stay)).1.grid = cook_grid s.grid := rfl

lemma run_stays_grid (env : Env) (s : GameState) (k : Nat) :
    (run_env env (fun _ => (Actions.stay, Actions.stay)) s k).grid
      = cook_grid^[k] s.grid := by
  induction k with
  | zero => rfl
  | succ k ih =>
    simp only [run_env]
    rw [stay_step_grid, ih, Function.iterate_succ_apply']

lemma cook_grid_iterate_apply (p : Position) (k : Nat) :
    ∀ g : Grid, (cook_grid^[k] g) p = cook_cell^[k] (g p) := by
  induction k with
  | zero => intro g; rfl
  | succ k ih =>
    intro g
    rw [Function.iterate_succ_apply, Function.iterate_succ_apply]
    exact ih (cook_grid g)

lemma cook_cell_pot_zero (d : Nat) :
    cook_cell ⟨StaticObject.POT, d, 0⟩ = ⟨StaticObject.POT, d, 0⟩ := by
  simp [cook_cell, Nat.or_zero]

lemma cook_cell_stationary (d k : Nat) :
    cook_cell^[k] ⟨StaticObject.POT, d, 0⟩ = ⟨StaticObject.POT, d, 0⟩ := by
  induction k with
  | zero => rfl
  | succ k ih => rw [Function.iterate_succ_apply, cook_cell_pot_zero, ih]

lemma cook_cell_countdown (ing : Nat) :
    ∀ k e : Nat, 0 < e →
      cook_cell^[k] ⟨StaticObject.POT, ing, e⟩ =
        if k < e then ⟨StaticObject.POT, ing, e - k⟩
        else ⟨StaticObject.POT, ing ||| DynamicObject.COOKED, 0⟩ := by
  intro k
  induction k with
  | zero =>
    intro e he
    rw [Function.iterate_zero_apply, if_pos he, Nat.sub_zero]
  | succ k ih =>
    intro e he
    rw [Function.iterate_succ_apply]
    by_cases h1 : e = 1
    · subst h1
      have hcc : cook_cell ⟨StaticObject.POT, ing, 1⟩
          = ⟨StaticObject.POT, ing ||| DynamicObject.COOKED, 0⟩ := by
        simp [cook_cell, DynamicObject.COOKED]
      rw [hcc, cook_cell_stationary, if_neg (by omega)]
    · have hcc : cook_cell ⟨StaticObject.POT, ing, e⟩ = ⟨StaticObject.POT, ing, e - 1⟩ := by
        have hne : ¬(e - 1 = 0) := by omega
        simp [cook_cell, he, hne, Nat.or_zero]
      rw [hcc, ih (e - 1) (by omega)]
      by_cases h3 : k < e - 1
      · rw [if_pos h3, if_pos (show k + 1 < e by omega)]
        have hsub : e - 1 - k = e - (k + 1) := by omega
        rw [hsub]
      · rw [if_neg h3, if_neg (show ¬(k + 1 < e) by omega)]

lemma step_env_interact_stay_grid (env : Env) (s : GameState) :
    (step_env env s (Actions.interact, Actions.stay)).1.grid
      = cook_grid (process_interact env s.grid s.agents.1).1 := by
  simp only [step_env, step_agents, move_wrapper, ACTION_TO_DIRECTION]
  simp [resolved_positions]

/-! ## Claim theorems: pot cooking start and countdown -/

/-- C1 (amended): an empty-handed agent interacting with an idle, non-empty
pot sets the cook counter to `POT_COOK_TIME`, but the cooking update of the
same step immediately decrements it: at the end of the interaction step the
counter is `POT_COOK_TIME - 1` (that is, 19), and after exactly
`POT_COOK_TIME - 1` further steps with no interaction the cooked flag is
set and the counter is 0. -/
theorem pot_start_cook_countdown
    (env : Env) (s : GameState) (ing : Nat)
    (hinv : s.agents.1.inventory = 0)
    (hcell : s.grid (s.agents.1.get_fwd_pos env.width env.height)
      = ⟨StaticObject.POT, ing, 0⟩)
    (hing : ing ≠ 0) (hraw : ing &&& DynamicObject.COOKED = 0) :
    ((step_env env s (Actions.interact, Actions.stay)).1.grid
        (s.agents.1.get_fwd_pos env.width env.height)
      = ⟨StaticObject.POT, ing, POT_COOK_TIME - 1⟩)
    ∧ ∀ k, (run_env env (fun _ => (Actions.stay, Actions.stay))
          (step_env env s (Actions.interact, Actions.stay)).1 k).grid
          (s.agents.1.get_fwd_pos env.width env.height)
        = if k < POT_COOK_TIME - 1 then ⟨StaticObject.POT, ing, POT_COOK_TIME - 1 - k⟩
          else ⟨StaticObject.POT, ing ||| DynamicObject.COOKED, 0⟩ := by
  have hstat : (s.grid (s.agents.1.get_fwd_pos env.width env.height)).static
      = StaticObject.POT := by rw [hcell]
  have hdynv : (s.grid (s.agents.1.get_fwd_pos env.width env.height)).dynamic = ing := by
    rw [hcell]
  have hext : (s.grid (s.agents.1.get_fwd_pos env.width env.height)).extra = 0 := by
    rw [hcell]
  have hcook : cooking_start (s.grid (s.agents.1.get_fwd_pos env.width env.height)) 0
      = true := by
    simp [cooking_start, pot_is_idle, pot_is_cooking, pot_is_cooked, hstat, hext, hdynv,
      hraw, hing]
  have hpick : successful_pickup (s.grid (s.agents.1.get_fwd_pos env.width env.height)) 0
      = false := by
    simp +decide [successful_pickup, object_is_pile, StaticObject.is_ingredient_pile,
      pot_is_cooked, hstat, hdynv, hraw]
  have hdel : successful_delivery (s.grid (s.agents.1.get_fwd_pos env.width env.height)) 0
      = false := by
    simp +decide [successful_delivery, hstat]
  have hgrid1 : (process_interact env s.grid s.agents.1).1
      (s.agents.1.get_fwd_pos env.width env.height)
      = ⟨StaticObject.POT, ing, POT_COOK_TIME⟩ := by
    by_cases hdrop : successful_drop (s.grid (s.agents.1.get_fwd_pos env.width env.height))
        0 = true
    · have hnoeff : no_effect (s.grid (s.agents.1.get_fwd_pos env.width env.height)) 0
          = false := by
        simp [no_effect, hdrop]
      simp only [process_interact, Grid.set_same]
      simp [hinv, hcook, hdrop, hnoeff, hstat, hdynv]
    · have hdropf : successful_drop (s.grid (s.agents.1.get_fwd_pos env.width env.height)) 0
          = false := by
        simpa using hdrop
      have hnoeff : no_effect (s.grid (s.agents.1.get_fwd_pos env.width env.height)) 0
          = true := by
        simp [no_effect, hpick, hdropf, hdel]
      simp only [process_interact, Grid.set_same]
      simp [hinv, hcook, hdropf, hnoeff, hstat, hdynv]
  have hstep := step_env_interact_stay_grid env s
  have h19 : cook_cell ⟨StaticObject.POT, ing, POT_COOK_TIME⟩
      = ⟨StaticObject.POT, ing, 19⟩ := by
    simp [cook_cell, POT_COOK_TIME, Nat.or_zero]
  constructor
  · rw [hstep]
    show cook_cell ((process_interact env s.grid s.agents.1).1
      (s.agents.1.get_fwd_pos env.width env.height)) = _
    rw [hgrid1, h19]
    rfl
  · intro k
    rw [run_stays_grid, cook_grid_iterate_apply, hstep]
    show cook_cell^[k] (cook_cell ((process_interact env s.grid s.agents.1).1
      (s.agents.1.get_fwd_pos env.width env.height))) = _
    rw [hgrid1, h19]
    exact cook_cell_countdown ing k 19 (by decide)

/-- Witness for the amended pot-cooking theorem on `state0`: the counter is
19 at the end of the interaction step, and after 19 further stay steps the
pot holds a cooked dish (dynamic 5 = onion | cooked-flag) with counter 0. -/
theorem pot_start_cook_countdown_witness :
    (step_env envW state0 (Actions.interact, Actions.stay)).1.grid potPos0
      = ⟨StaticObject.POT, 4, 19⟩
    ∧ (run_env envW (fun _ => (Actions.stay, Actions.stay))
        (step_env envW state0 (Actions.interact, Actions.stay)).1 19).grid potPos0
      = ⟨StaticObject.POT, 5, 0⟩ := by
  have h := pot_start_cook_countdown envW state0 4 rfl (by decide) (by decide) (by decide)
  exact ⟨h.1, (h.2 19).trans (by decide)⟩

/-- C1 counterexample: in `state0` the empty-handed agent 0 interacts with
the idle pot holding one ingredient; at the end of that very step the
pot's extra counter is 19, not 20 (= `POT_COOK_TIME`), because the cooking
update of the same step already decremented the freshly set counter, and
the cooked flag is set 19 (not 20) further steps later. -/
theorem pot_start_counter_not_twenty :
    state0.agents.1.inventory = 0
    ∧ state0.grid potPos0 = ⟨StaticObject.POT, DynamicObject.ingredient 0, 0⟩
    ∧ ((step_env envW state0 (Actions.interact, Actions.stay)).1.grid potPos0).extra = 19
    ∧ ((step_env envW state0 (Actions.interact, Actions.stay)).1.grid potPos0).extra
      ≠ POT_COOK_TIME
    ∧ ((run_env envW (fun _ => (Actions.stay, Actions.stay))
        (step_env envW state0 (Actions.interact, Actions.stay)).1 19).grid potPos0).dynamic
        &&& DynamicObject.COOKED ≠ 0 := by
  refine ⟨rfl, by decide, by decide, by decide, by decide⟩

/-- Witness for the same-target-collision theorem: agents at (0,1) and
(2,1) both move into (1,1) and both revert. -/
theorem same_target_collision_reverts_both_witness :
    (step_agents envW cState (Actions.right, Actions.left)).1.agents.1.pos = cAgentA.pos
    ∧ (step_agents envW cState (Actions.right, Actions.left)).1.agents.2.pos = cAgentB.pos
    ∧ (step_agents envW cState (Actions.right, Actions.left)).1.agents.1.pos
      ≠ (step_agents envW cState (Actions.right, Actions.left)).1.agents.2.pos :=
  same_target_collision_reverts_both envW cState Actions.right Actions.left
    Direction.RIGHT Direction.LEFT ⟨1, 1⟩ (by decide) rfl rfl (by decide) (by decide) rfl

end Overcooked
